import Mathlib

/-!
Verification of the `s3-link-generator` Lambda handler
(`src/s3-link-generator/s3-link-generator.py`) against its design
specification.

The handler is a single linear transformation: extract `detail.bucket.name`
and `detail.object.key` from the incoming event, validate them, request a
pre-signed URL from S3, build a payload and publish it to EventBridge,
returning a `statusCode`/`body` pair.  We embed it shallowly:

* incoming events are arbitrary JSON values (`JValue`), and the Python
  `dict.get` chains of lines 35-36 are modelled by `pyGet`, which raises
  (returns `Except.error`, an `AttributeError`) when `.get` is invoked on a
  non-dict, exactly as Python does inside the outer `try`;
* the two outbound AWS calls are oracles passed in as parameters: a
  `CallOutcome` is either a successful result, a `botocore` `ClientError`
  (the only exception type the inner `except` clauses catch), or any other
  raised exception;
* the environment is modelled by `Env`; `URL_EXPIRATION_SECONDS` is carried
  already parsed as an integer (`none` = variable absent/unset, in which
  case line 46 falls back to 86400);
* `datetime.utcnow().isoformat()` is modelled by an arbitrary timestamp
  string parameter;
* the result records, besides the returned response, the full list of
  S3 requests issued (with their `Bucket`, `Key` and `ExpiresIn`
  parameters), the entries handed to `put_events`, and the entries
  actually published (accepted by a successful `put_events` call), so that
  "no outbound call occurs" and "exactly one event is published" are
  directly statable;
* `json.dumps` applied to the plain ASCII message strings of the source is
  quote-wrapping (`jsonDumpsStr`); the payload handed to EventBridge is
  kept structured (field-for-field as built on lines 68-74) rather than
  serialized, since all claims speak about its fields.
-/

namespace S3LinkGen

/-- A JSON value, the type of the incoming Lambda `event` and of the
values extracted from it by the `dict.get` chains. -/
inductive JValue where
  | null : JValue
  | bool : Bool → JValue
  | num : Int → JValue
  | str : String → JValue
  | arr : List JValue → JValue
  | obj : List (String × JValue) → JValue
deriving Repr

/-- First-match lookup in the field list of a JSON object (Python `dict` lookup). -/
def jLookup : List (String × JValue) → String → Option JValue
  | [], _ => none
  | (k, v) :: rest, key => if k = key then some v else jLookup rest key

/-- Python `v.get(key, dflt)`: returns the field (or the default when the
key is absent) when `v` is a dict, and raises `AttributeError` otherwise. -/
def pyGet (v : JValue) (key : String) (dflt : JValue) : Except String JValue :=
  match v with
  | JValue.obj fields => Except.ok ((jLookup fields key).getD dflt)
  | _ => Except.error ("AttributeError: get on non-dict value")

/-- Python truthiness of a JSON value, as tested by
`if not bucket_name or not object_key` (line 38). -/
def truthy : JValue → Bool
  | JValue.null => false
  | JValue.bool b => b
  | JValue.num n => n ≠ 0
  | JValue.str s => s ≠ ""
  | JValue.arr l => ¬ l.isEmpty
  | JValue.obj f => ¬ f.isEmpty

/-- Lines 35-36: the chains `event.get(detail, dict()).get(bucket, dict()).get(name)`
and `event.get(detail, dict()).get(object, dict()).get(key)` over string keys.
An error is an `AttributeError` escaping to the outer handler. -/
def extractBucketAndKey (event : JValue) : Except String (JValue × JValue) := do
  let detail1 ← pyGet event ("detail") (JValue.obj [])
  let bucket ← pyGet detail1 ("bucket") (JValue.obj [])
  let bucket_name ← pyGet bucket ("name") JValue.null
  let detail2 ← pyGet event ("detail") (JValue.obj [])
  let object ← pyGet detail2 ("object") (JValue.obj [])
  let object_key ← pyGet object ("key") JValue.null
  pure (bucket_name, object_key)

/-- Lines 113-133, `format_expiration_time`.  Python `//` is floor
division, `Int.fdiv` here; the f-strings concatenate the number, the unit
and an optional plural `"s"`. -/
def format_expiration_time (seconds : Int) : String :=
  if seconds < 60 then
    toString seconds ++ " seconds"
  else if seconds < 3600 then
    let minutes := seconds.fdiv 60
    toString minutes ++ " minute" ++ (if minutes ≠ 1 then ("s") else (""))
  else if seconds < 86400 then
    let hours := seconds.fdiv 3600
    toString hours ++ " hour" ++ (if hours ≠ 1 then ("s") else (""))
  else
    let days := seconds.fdiv 86400
    toString days ++ " day" ++ (if days ≠ 1 then ("s") else (""))

/-- Process environment (lines 46, 77-79); `none` = variable unset.
`URL_EXPIRATION_SECONDS` is carried already converted by `int`. -/
structure Env where
  urlExpirationSeconds : Option Int
  eventSource : Option String
  eventDetailType : Option String
  eventBusName : Option String

/-- The returned dict carrying `statusCode` and `body`. -/
structure Response where
  statusCode : Nat
  body : String
deriving Repr, DecidableEq

/-- Model of `json.dumps` on a plain string without characters needing
escapes (all message literals in the source are such). -/
def jsonDumpsStr (s : String) : String := "\"" ++ s ++ "\""

/-- The EventBridge payload built on lines 68-74.  `fileName` and `bucket`
hold the extracted JSON values (strings, for well-formed notifications). -/
structure Payload where
  fileName : JValue
  fileUrl : String
  bucket : JValue
  expirationTime : String
  timestamp : String

/-- One entry of the `put_events` call (lines 83-92); `detail` is the
payload that the source serializes with `json.dumps`. -/
structure Entry where
  source : String
  detailType : String
  detail : Payload
  eventBusName : String

/-- Parameters of one `generate_presigned_url` request (lines 51-58). -/
structure S3Request where
  bucket : JValue
  key : JValue
  expiresIn : Int

/-- Outcome of one outbound AWS call: success, a `botocore.ClientError`
(caught by the inner `except ClientError` clauses), or any other raised
exception (caught only by the outer `except Exception`). -/
inductive CallOutcome (α : Type) where
  | ok : α → CallOutcome α
  | clientError : String → CallOutcome α
  | raised : String → CallOutcome α

/-- Everything observable about one invocation: the returned response, the
S3 requests issued, the entries handed to `put_events`, and the entries
actually published (i.e. accepted by a successful `put_events`). -/
structure HandlerResult where
  response : Response
  s3Requests : List S3Request
  ebRequests : List Entry
  published : List Entry

/-- Lines 16-111, `lambda_handler`, parametrised by the behaviour of the
two external services (`s3` : outcome of `generate_presigned_url`, `eb` :
outcome of `put_events`) and the invocation timestamp. -/
def lambda_handler (event : JValue) (env : Env)
    (s3 : CallOutcome String) (eb : CallOutcome Unit) (ts : String) :
    HandlerResult :=
  match extractBucketAndKey event with
  | Except.error e =>
      -- an AttributeError from the `.get` chain reaches the outer handler
      { response := ⟨500, jsonDumpsStr ("Unexpected error: " ++ e)⟩,
        s3Requests := [], ebRequests := [], published := [] }
  | Except.ok (bucket_name, object_key) =>
    if ¬ truthy bucket_name ∨ ¬ truthy object_key then
      { response := ⟨400, jsonDumpsStr ("Invalid event structure")⟩,
        s3Requests := [], ebRequests := [], published := [] }
    else
      let expiration_seconds := env.urlExpirationSeconds.getD 86400
      let expiration_text := format_expiration_time expiration_seconds
      let s3req : S3Request := ⟨bucket_name, object_key, expiration_seconds⟩
      match s3 with
      | CallOutcome.clientError _ =>
          { response := ⟨500, jsonDumpsStr ("Error generating pre-signed URL")⟩,
            s3Requests := [s3req], ebRequests := [], published := [] }
      | CallOutcome.raised e =>
          { response := ⟨500, jsonDumpsStr ("Unexpected error: " ++ e)⟩,
            s3Requests := [s3req], ebRequests := [], published := [] }
      | CallOutcome.ok presigned_url =>
        let payload : Payload :=
          { fileName := object_key, fileUrl := presigned_url,
            bucket := bucket_name, expirationTime := expiration_text,
            timestamp := ts }
        let entry : Entry :=
          { source := env.eventSource.getD ("s3-link-generator"),
            detailType := env.eventDetailType.getD ("file-link-generated"),
            detail := payload,
            eventBusName := env.eventBusName.getD ("default") }
        match eb with
        | CallOutcome.clientError _ =>
            { response := ⟨500, jsonDumpsStr ("Error publishing event to EventBridge")⟩,
              s3Requests := [s3req], ebRequests := [entry], published := [] }
        | CallOutcome.raised e =>
            { response := ⟨500, jsonDumpsStr ("Unexpected error: " ++ e)⟩,
              s3Requests := [s3req], ebRequests := [entry], published := [] }
        | CallOutcome.ok _ =>
            { response := ⟨200, jsonDumpsStr ("Successfully generated pre-signed URL and published event")⟩,
              s3Requests := [s3req], ebRequests := [entry], published := [entry] }

/-- The duration formatter as the specification words it: four disjoint
ranges, floor division, singular unit exactly when the quotient is 1,
always-plural "seconds". -/
def format_expiration_time_spec (n : Int) : String :=
  if n < 60 then
    toString n ++ " seconds"
  else if 60 ≤ n ∧ n < 3600 then
    (if n.fdiv 60 = 1 then toString (n.fdiv 60) ++ " minute"
     else toString (n.fdiv 60) ++ " minutes")
  else if 3600 ≤ n ∧ n < 86400 then
    (if n.fdiv 3600 = 1 then toString (n.fdiv 3600) ++ " hour"
     else toString (n.fdiv 3600) ++ " hours")
  else
    (if n.fdiv 86400 = 1 then toString (n.fdiv 86400) ++ " day"
     else toString (n.fdiv 86400) ++ " days")

/-- A well-formed notification event as in the end-to-end scenario of the spec. -/
def mkNotification (bucket key : String) : JValue :=
  JValue.obj [("detail", JValue.obj
    [("bucket", JValue.obj [("name", JValue.str bucket)]),
     ("object", JValue.obj [("key", JValue.str key)])])]

/-- Environment with every variable unset (all defaults apply). -/
def defaultEnv : Env := ⟨none, none, none, none⟩

/-- The `Unexpected error:` body can never coincide with the signing-error
body: their second characters differ. -/
theorem unexpected_ne_signBody (e : String) :
    jsonDumpsStr ("Unexpected error: " ++ e) ≠
      jsonDumpsStr ("Error generating pre-signed URL") := by
  intro h
  have h1 : (jsonDumpsStr ("Unexpected error: " ++ e)).data.get? 1 = some ('U') := rfl
  rw [h] at h1
  exact absurd h1 (by decide)

/-- The `Unexpected error:` body can never coincide with the publish-error
body: their second characters differ. -/
theorem unexpected_ne_pubBody (e : String) :
    jsonDumpsStr ("Unexpected error: " ++ e) ≠
      jsonDumpsStr ("Error publishing event to EventBridge") := by
  intro h
  have h1 : (jsonDumpsStr ("Unexpected error: " ++ e)).data.get? 1 = some ('U') := rfl
  rw [h] at h1
  exact absurd h1 (by decide)

/-- Claim C5: `format_expiration_time` agrees, on every non-negative
integer, with the formatter as the specification words it (four disjoint
ranges, floor division, singular unit exactly when the quotient is 1,
always-plural "seconds"), and the five concrete examples of the spec hold. -/
theorem format_expiration_time_matches_spec :
    (∀ n : Nat, format_expiration_time n = format_expiration_time_spec n) ∧
    format_expiration_time 30 = "30 seconds" ∧
    format_expiration_time 90 = "1 minute" ∧
    format_expiration_time 7200 = "2 hours" ∧
    format_expiration_time 86400 = "1 day" ∧
    format_expiration_time 172800 = "2 days" := by
  refine ⟨fun n => ?_, by decide, by decide, by decide, by decide, by decide⟩
  unfold format_expiration_time format_expiration_time_spec
  dsimp only
  by_cases h1 : (n : Int) < 60
  · rw [if_pos h1, if_pos h1]
  · by_cases h2 : (n : Int) < 3600
    · rw [if_neg h1, if_neg h1, if_pos h2,
        if_pos (show 60 ≤ (n : Int) ∧ (n : Int) < 3600 from ⟨by omega, h2⟩)]
      by_cases hm : (n : Int).fdiv 60 = 1
      · rw [if_neg (not_not_intro hm), if_pos hm, String.append_empty]
      · rw [if_pos hm, if_neg hm, String.append_assoc]
        congr 1
    · by_cases h3 : (n : Int) < 86400
      · rw [if_neg h1, if_neg h1, if_neg h2,
          if_neg (show ¬(60 ≤ (n : Int) ∧ (n : Int) < 3600) from by omega),
          if_pos h3,
          if_pos (show 3600 ≤ (n : Int) ∧ (n : Int) < 86400 from ⟨by omega, h3⟩)]
        by_cases hm : (n : Int).fdiv 3600 = 1
        · rw [if_neg (not_not_intro hm), if_pos hm, String.append_empty]
        · rw [if_pos hm, if_neg hm, String.append_assoc]
          congr 1
      · rw [if_neg h1, if_neg h1, if_neg h2,
          if_neg (show ¬(60 ≤ (n : Int) ∧ (n : Int) < 3600) from by omega),
          if_neg h3,
          if_neg (show ¬(3600 ≤ (n : Int) ∧ (n : Int) < 86400) from by omega)]
        by_cases hm : (n : Int).fdiv 86400 = 1
        · rw [if_neg (not_not_intro hm), if_pos hm, String.append_empty]
        · rw [if_pos hm, if_neg hm, String.append_assoc]
          congr 1

/-- Claim C8: the formatter is deterministic and pure — it is a function
of its integer argument alone, so equal inputs always yield equal
output strings. -/
theorem format_expiration_time_deterministic :
    ∀ n m : Int, n = m →
      format_expiration_time n = format_expiration_time m :=
  fun _ _ h => congrArg format_expiration_time h

/-- Witness for C8 at the default expiration value. -/
theorem format_expiration_time_deterministic_witness :
    format_expiration_time 86400 = format_expiration_time 86400 :=
  format_expiration_time_deterministic 86400 86400 rfl

/-- Claim C9: the formatter performs no non-negativity check — every
integer below 60, negative ones included, lands in the `"{n} seconds"`
branch; in particular `-5` gives `"-5 seconds"`. -/
theorem format_negative_seconds_unchecked :
    (∀ n : Int, n < 60 →
      format_expiration_time n = toString n ++ " seconds") ∧
    format_expiration_time (-5) = "-5 seconds" := by
  refine ⟨fun n h => ?_, by decide⟩
  unfold format_expiration_time
  rw [if_pos h]

/-- Witness for C9 at the negative input `-7`. -/
theorem format_negative_seconds_unchecked_witness :
    format_expiration_time (-7) = "-7 seconds" :=
  (format_negative_seconds_unchecked.1 (-7) (by decide)).trans (by decide)

/-- Claim C7: on every event, environment, service behaviour and
timestamp, the handler returns a structured outcome whose status code is
200, 400 or 500; no raw fault escapes. -/
theorem handler_always_returns_structured_status :
    ∀ (event : JValue) (env : Env) (s3 : CallOutcome String)
      (eb : CallOutcome Unit) (ts : String),
      (lambda_handler event env s3 eb ts).response.statusCode = 200 ∨
      (lambda_handler event env s3 eb ts).response.statusCode = 400 ∨
      (lambda_handler event env s3 eb ts).response.statusCode = 500 := by
  intro event env s3 eb ts
  unfold lambda_handler
  rcases extractBucketAndKey event with e | ⟨bn, k⟩
  · simp
  · dsimp only
    by_cases hv : ¬ truthy bn = true ∨ ¬ truthy k = true
    · rw [if_pos hv]
      simp
    · rw [if_neg hv]
      cases s3 <;> cases eb <;> simp

/-- Claim C1: for a notification with non-empty `bucketName` and
`objectKey`, when both the signed-URL request and the publish call
succeed, the handler returns status 200 and exactly one event is
published, whose detail has `fileName` = the object key, `bucket` = the
bucket name and `fileUrl` = the signed URL that S3 returned. -/
theorem success_publishes_exactly_one_event
    (event : JValue) (env : Env) (ts url b k : String)
    (hx : extractBucketAndKey event = Except.ok (JValue.str b, JValue.str k))
    (hb : b ≠ "") (hk : k ≠ "") :
    (lambda_handler event env (CallOutcome.ok url) (CallOutcome.ok ()) ts).response.statusCode
        = 200 ∧
    ∃ entry : Entry,
      (lambda_handler event env (CallOutcome.ok url) (CallOutcome.ok ()) ts).published
          = [entry] ∧
      entry.detail.fileName = JValue.str k ∧
      entry.detail.bucket = JValue.str b ∧
      entry.detail.fileUrl = url := by
  unfold lambda_handler
  rw [hx]
  dsimp only
  rw [if_neg (by simp [truthy, hb, hk])]
  exact ⟨rfl, _, rfl, rfl, rfl, rfl⟩

/-- Witness for C1 on the end-to-end scenario event of the spec. -/
theorem success_publishes_exactly_one_event_witness :
    (lambda_handler (mkNotification ("my-bucket") ("report.pdf")) defaultEnv
        (CallOutcome.ok ("https://example.invalid/signed"))
        (CallOutcome.ok ()) ("2026-10-12T00:00:00")).response.statusCode = 200 :=
  (success_publishes_exactly_one_event
    (mkNotification ("my-bucket") ("report.pdf")) defaultEnv
    ("2026-10-12T00:00:00") ("https://example.invalid/signed")
    ("my-bucket") ("report.pdf") rfl (by decide) (by decide)).1

/-- Claim C2: when the extracted `bucket.name` or `object.key` is missing
(`None`) or the empty string, the handler returns status 400 and contacts
neither external service; the check itself is total, so no fault can
escape from it. -/
theorem missing_or_empty_returns_400_no_calls
    (event : JValue) (env : Env) (s3 : CallOutcome String)
    (eb : CallOutcome Unit) (ts : String) (bn k : JValue)
    (hx : extractBucketAndKey event = Except.ok (bn, k))
    (hbad : bn = JValue.null ∨ bn = JValue.str ("") ∨
            k = JValue.null ∨ k = JValue.str ("")) :
    (lambda_handler event env s3 eb ts).response.statusCode = 400 ∧
    (lambda_handler event env s3 eb ts).s3Requests = [] ∧
    (lambda_handler event env s3 eb ts).ebRequests = [] ∧
    (lambda_handler event env s3 eb ts).published = [] := by
  unfold lambda_handler
  rw [hx]
  dsimp only
  rcases hbad with h | h | h | h <;> subst h <;>
    rw [if_pos (by simp [truthy])] <;> exact ⟨rfl, rfl, rfl, rfl⟩

/-- Witness for C2: an event whose `detail` lacks the `object` member, so
the extracted key is `None`. -/
theorem missing_or_empty_returns_400_no_calls_witness :
    (lambda_handler
        (JValue.obj [("detail", JValue.obj
          [("bucket", JValue.obj [("name", JValue.str ("b"))])])])
        defaultEnv (CallOutcome.ok ("u")) (CallOutcome.ok ())
        ("t")).response.statusCode = 400 :=
  (missing_or_empty_returns_400_no_calls
    (JValue.obj [("detail", JValue.obj
      [("bucket", JValue.obj [("name", JValue.str ("b"))])])])
    defaultEnv (CallOutcome.ok ("u")) (CallOutcome.ok ()) ("t")
    (JValue.str ("b")) JValue.null rfl
    (Or.inr (Or.inr (Or.inl rfl)))).1

/-- Claim C3: for a valid notification, when the signed-URL call fails
(does not return a URL), the handler returns status 500 and never calls
`put_events`, so nothing is published. -/
theorem signing_failure_returns_500_no_publish
    (event : JValue) (env : Env) (s3 : CallOutcome String)
    (eb : CallOutcome Unit) (ts : String) (bn k : JValue)
    (hx : extractBucketAndKey event = Except.ok (bn, k))
    (hb : truthy bn = true) (hk : truthy k = true)
    (hfail : ∀ u : String, s3 ≠ CallOutcome.ok u) :
    (lambda_handler event env s3 eb ts).response.statusCode = 500 ∧
    (lambda_handler event env s3 eb ts).ebRequests = [] ∧
    (lambda_handler event env s3 eb ts).published = [] := by
  cases s3 with
  | ok u => exact absurd rfl (hfail u)
  | clientError m =>
      unfold lambda_handler
      rw [hx]
      dsimp only
      rw [if_neg (by simp [hb, hk])]
      exact ⟨rfl, rfl, rfl⟩
  | raised m =>
      unfold lambda_handler
      rw [hx]
      dsimp only
      rw [if_neg (by simp [hb, hk])]
      exact ⟨rfl, rfl, rfl⟩

/-- Witness for C3 with a `ClientError` from `generate_presigned_url`. -/
theorem signing_failure_returns_500_no_publish_witness :
    (lambda_handler (mkNotification ("my-bucket") ("report.pdf")) defaultEnv
        (CallOutcome.clientError ("AccessDenied")) (CallOutcome.ok ())
        ("t")).response.statusCode = 500 :=
  (signing_failure_returns_500_no_publish
    (mkNotification ("my-bucket") ("report.pdf")) defaultEnv
    (CallOutcome.clientError ("AccessDenied")) (CallOutcome.ok ()) ("t")
    (JValue.str ("my-bucket")) (JValue.str ("report.pdf")) rfl
    (by decide) (by decide)
    (fun u h => CallOutcome.noConfusion h)).1

/-- Claim C4: for a valid notification where signing succeeds but the
publish call fails, the handler returns status 500 and performs no
compensating action: exactly one S3 request and exactly one publish
attempt were made, and no second call to either service follows. -/
theorem publish_failure_returns_500_no_compensation
    (event : JValue) (env : Env) (eb : CallOutcome Unit)
    (ts url : String) (bn k : JValue)
    (hx : extractBucketAndKey event = Except.ok (bn, k))
    (hb : truthy bn = true) (hk : truthy k = true)
    (hfail : ∀ u : Unit, eb ≠ CallOutcome.ok u) :
    (lambda_handler event env (CallOutcome.ok url) eb ts).response.statusCode = 500 ∧
    (lambda_handler event env (CallOutcome.ok url) eb ts).s3Requests.length = 1 ∧
    (lambda_handler event env (CallOutcome.ok url) eb ts).ebRequests.length = 1 ∧
    (lambda_handler event env (CallOutcome.ok url) eb ts).published = [] := by
  cases eb with
  | ok u => exact absurd rfl (hfail u)
  | clientError m =>
      unfold lambda_handler
      rw [hx]
      dsimp only
      rw [if_neg (by simp [hb, hk])]
      exact ⟨rfl, rfl, rfl, rfl⟩
  | raised m =>
      unfold lambda_handler
      rw [hx]
      dsimp only
      rw [if_neg (by simp [hb, hk])]
      exact ⟨rfl, rfl, rfl, rfl⟩

/-- Witness for C4 with a `ClientError` from `put_events`. -/
theorem publish_failure_returns_500_no_compensation_witness :
    (lambda_handler (mkNotification ("my-bucket") ("report.pdf")) defaultEnv
        (CallOutcome.ok ("u")) (CallOutcome.clientError ("Throttling"))
        ("t")).response.statusCode = 500 :=
  (publish_failure_returns_500_no_compensation
    (mkNotification ("my-bucket") ("report.pdf")) defaultEnv
    (CallOutcome.clientError ("Throttling")) ("t") ("u")
    (JValue.str ("my-bucket")) (JValue.str ("report.pdf")) rfl
    (by decide) (by decide)
    (fun u h => CallOutcome.noConfusion h)).1

/-- Claim C6: with `URL_EXPIRATION_SECONDS` unset the handler uses 86400
seconds as the `ExpiresIn` of the S3 request, and the `expirationTime`
field of the published event is the string "1 day". -/
theorem default_expiration_one_day
    (event : JValue) (env : Env) (ts url b k : String)
    (hx : extractBucketAndKey event = Except.ok (JValue.str b, JValue.str k))
    (hb : b ≠ "") (hk : k ≠ "")
    (hdef : env.urlExpirationSeconds = none) :
    (lambda_handler event env (CallOutcome.ok url) (CallOutcome.ok ()) ts).response.statusCode
        = 200 ∧
    (lambda_handler event env (CallOutcome.ok url) (CallOutcome.ok ()) ts).s3Requests
        = [⟨JValue.str b, JValue.str k, 86400⟩] ∧
    ∃ entry : Entry,
      (lambda_handler event env (CallOutcome.ok url) (CallOutcome.ok ()) ts).published
          = [entry] ∧
      entry.detail.expirationTime = "1 day" ∧
      entry.detail.fileName = JValue.str k ∧
      entry.detail.bucket = JValue.str b := by
  unfold lambda_handler
  rw [hx]
  dsimp only
  rw [if_neg (by simp [truthy, hb, hk]), hdef]
  refine ⟨rfl, rfl, _, rfl, ?_, rfl, rfl⟩
  show format_expiration_time (Option.getD none 86400) = "1 day"
  decide

/-- Witness for C6 on the end-to-end scenario of the spec. -/
theorem default_expiration_one_day_witness :
    (lambda_handler (mkNotification ("my-bucket") ("report.pdf")) defaultEnv
        (CallOutcome.ok ("https://example.invalid/signed"))
        (CallOutcome.ok ()) ("t")).response.statusCode = 200 :=
  (default_expiration_one_day
    (mkNotification ("my-bucket") ("report.pdf")) defaultEnv
    ("t") ("https://example.invalid/signed")
    ("my-bucket") ("report.pdf") rfl (by decide) (by decide) rfl).1

/-- Claim C10: for a valid notification, only `ClientError` failures of
the two calls produce the two specific error bodies; any other exception
raised by either call bypasses the inner branches and is reported by the
outermost boundary as status 500 with an `Unexpected error:` body. -/
theorem only_client_errors_hit_inner_branches
    (event : JValue) (env : Env) (s3 : CallOutcome String)
    (eb : CallOutcome Unit) (ts : String) (bn k : JValue)
    (hx : extractBucketAndKey event = Except.ok (bn, k))
    (hb : truthy bn = true) (hk : truthy k = true) :
    (∀ e, s3 = CallOutcome.raised e →
      (lambda_handler event env s3 eb ts).response =
        ⟨500, jsonDumpsStr ("Unexpected error: " ++ e)⟩) ∧
    (∀ url e, s3 = CallOutcome.ok url → eb = CallOutcome.raised e →
      (lambda_handler event env s3 eb ts).response =
        ⟨500, jsonDumpsStr ("Unexpected error: " ++ e)⟩) ∧
    ((lambda_handler event env s3 eb ts).response.body =
        jsonDumpsStr ("Error generating pre-signed URL") →
      ∃ m, s3 = CallOutcome.clientError m) ∧
    ((lambda_handler event env s3 eb ts).response.body =
        jsonDumpsStr ("Error publishing event to EventBridge") →
      ∃ url m, s3 = CallOutcome.ok url ∧ eb = CallOutcome.clientError m) := by
  have hred : ∀ (s3 : CallOutcome String) (eb : CallOutcome Unit),
      lambda_handler event env s3 eb ts =
        (let expiration_seconds := env.urlExpirationSeconds.getD 86400
         let s3req : S3Request := ⟨bn, k, expiration_seconds⟩
         match s3 with
         | CallOutcome.clientError _ =>
             { response := ⟨500, jsonDumpsStr ("Error generating pre-signed URL")⟩,
               s3Requests := [s3req], ebRequests := [], published := [] }
         | CallOutcome.raised e =>
             { response := ⟨500, jsonDumpsStr ("Unexpected error: " ++ e)⟩,
               s3Requests := [s3req], ebRequests := [], published := [] }
         | CallOutcome.ok presigned_url =>
           let payload : Payload :=
             { fileName := k, fileUrl := presigned_url, bucket := bn,
               expirationTime := format_expiration_time expiration_seconds,
               timestamp := ts }
           let entry : Entry :=
             { source := env.eventSource.getD ("s3-link-generator"),
               detailType := env.eventDetailType.getD ("file-link-generated"),
               detail := payload,
               eventBusName := env.eventBusName.getD ("default") }
           match eb with
           | CallOutcome.clientError _ =>
               { response := ⟨500, jsonDumpsStr ("Error publishing event to EventBridge")⟩,
                 s3Requests := [s3req], ebRequests := [entry], published := [] }
           | CallOutcome.raised e =>
               { response := ⟨500, jsonDumpsStr ("Unexpected error: " ++ e)⟩,
                 s3Requests := [s3req], ebRequests := [entry], published := [] }
           | CallOutcome.ok _ =>
               { response := ⟨200, jsonDumpsStr ("Successfully generated pre-signed URL and published event")⟩,
                 s3Requests := [s3req], ebRequests := [entry], published := [entry] }) := by
    intro s3 eb
    unfold lambda_handler
    rw [hx]
    dsimp only
    rw [if_neg (by simp [hb, hk])]
  refine ⟨?_, ?_, ?_, ?_⟩
  · intro e hs3
    subst hs3
    rw [hred]
  · intro url e hs3 heb
    subst hs3
    subst heb
    rw [hred]
  · intro hbody
    cases s3 with
    | ok url =>
        cases eb with
        | ok u =>
            rw [hred] at hbody
            dsimp only at hbody
            exact absurd hbody (by decide)
        | clientError m =>
            rw [hred] at hbody
            dsimp only at hbody
            exact absurd hbody (by decide)
        | raised e =>
            rw [hred] at hbody
            dsimp only at hbody
            exact absurd hbody (unexpected_ne_signBody e)
    | clientError m => exact ⟨m, rfl⟩
    | raised e =>
        rw [hred] at hbody
        dsimp only at hbody
        exact absurd hbody (unexpected_ne_signBody e)
  · intro hbody
    cases s3 with
    | ok url =>
        cases eb with
        | ok u =>
            rw [hred] at hbody
            dsimp only at hbody
            exact absurd hbody (by decide)
        | clientError m => exact ⟨url, m, rfl, rfl⟩
        | raised e =>
            rw [hred] at hbody
            dsimp only at hbody
            exact absurd hbody (unexpected_ne_pubBody e)
    | clientError m =>
        rw [hred] at hbody
        dsimp only at hbody
        exact absurd hbody (by decide)
    | raised e =>
        rw [hred] at hbody
        dsimp only at hbody
        exact absurd hbody (unexpected_ne_pubBody e)

/-- Witness for C10: a non-`ClientError` exception during signing is
reported by the outermost boundary. -/
theorem only_client_errors_hit_inner_branches_witness :
    (lambda_handler (mkNotification ("my-bucket") ("report.pdf")) defaultEnv
        (CallOutcome.raised ("boom")) (CallOutcome.ok ())
        ("t")).response = ⟨500, "\"Unexpected error: boom\""⟩ :=
  ((only_client_errors_hit_inner_branches
      (mkNotification ("my-bucket") ("report.pdf")) defaultEnv
      (CallOutcome.raised ("boom")) (CallOutcome.ok ()) ("t")
      (JValue.str ("my-bucket")) (JValue.str ("report.pdf")) rfl
      (by decide) (by decide)).1 ("boom") rfl).trans (by decide)

end S3LinkGen
